import Mathlib

/-!
Shallow embedding of the Hyper-V socket driver (`hv-rhel7.x/hv/af_hvsock.c`)
connection-management state machine and flow-controlled I/O engine, with
theorems checking the natural-language specification against the code.

Modelling conventions:
* 128-bit service identifiers (`uuid_le`) are modelled as `Nat`, with the
  wildcard `SHV_SERVICE_ID_ANY` as `0` (the spec says the wildcard is the
  reserved all-zero identifier).
* The two global registries (`hvsock_bound_list`, `hvsock_connected_list`)
  are lists of endpoint identifiers into a list of endpoint records; the
  intrusive `list_add` prepends, `list_add_tail` appends.
* Blocking waits, ring-buffer availability, packet reception and user-memory
  copies are external events; they are supplied to each loop as an explicit
  oracle list consumed one record per loop iteration.  A loop whose oracle
  runs out returns `none` (the call would still be blocked).
* Machine integers stay well inside their ranges here (backlogs are at most
  128, error codes are small), so `Nat`/`Int` are used directly; the one
  bit-mask computation (`msg_flags & ~MSG_DONTWAIT` on a 32-bit unsigned
  int) is written with the explicit 32-bit complement constant.
-/

namespace AfHvsock

/-! ### Constants from the kernel headers used by `af_hvsock.c` -/

/-- `enum socket_state`: `SS_UNCONNECTED` (the driver also reuses these
values for `sk->sk_state`). -/
def SS_UNCONNECTED : Nat := 1

/-- `enum socket_state`: `SS_CONNECTING`. -/
def SS_CONNECTING : Nat := 2

/-- `enum socket_state`: `SS_CONNECTED`. -/
def SS_CONNECTED : Nat := 3

/-- `enum socket_state`: `SS_DISCONNECTING`. -/
def SS_DISCONNECTING : Nat := 4

/-- `#define SS_LISTEN 255` from `af_hvsock.c`. -/
def SS_LISTEN : Nat := 255

/-- `RCV_SHUTDOWN` bit of `sk->sk_shutdown`. -/
def RCV_SHUTDOWN : Nat := 1

/-- `SEND_SHUTDOWN` bit of `sk->sk_shutdown`. -/
def SEND_SHUTDOWN : Nat := 2

/-- `SHUTDOWN_MASK = RCV_SHUTDOWN | SEND_SHUTDOWN`. -/
def SHUTDOWN_MASK : Nat := 3

/-- `SOCK_STREAM` socket type. -/
def SOCK_STREAM : Nat := 1

/-- `MSG_DONTWAIT` flag (0x40). -/
def MSG_DONTWAIT : Nat := 64

/-- 32-bit `~MSG_DONTWAIT` (0xFFFFFFBF), for `msg_flags & ~MSG_DONTWAIT`. -/
def NOT_MSG_DONTWAIT : Nat := 4294967231

/-- `MAX_SCHEDULE_TIMEOUT` (`LONG_MAX`); `sock_intr_errno` compares against it. -/
def MAX_SCHEDULE_TIMEOUT : Nat := 9223372036854775807

/-- Modelled from the spec: the wildcard service identifier
`SHV_SERVICE_ID_ANY` lives in the missing header
`include/linux/af_hvsock.h`; the spec says a wildcard address uses the
reserved all-zero identifier, so it is `0` here. -/
def SHV_SERVICE_ID_ANY : Nat := 0

/-- Modelled from the spec: `HVSOCK_SND_BUF_SZ`, the per-packet payload cap,
is defined in the missing header `include/linux/af_hvsock.h`; the spec fixes
it at one page (4096 bytes). -/
def HVSOCK_SND_BUF_SZ : Nat := 4096

/-- Modelled from the spec: `HVSOCK_RCV_BUF_SZ`, the receive-buffer capacity,
is defined in the missing header `include/linux/af_hvsock.h`; the spec fixes
it at one page (4096 bytes). -/
def HVSOCK_RCV_BUF_SZ : Nat := 4096

/-- Modelled from the spec: `sizeof(hvsk->recv.hdr)` from the missing header;
only its positivity and the comparison with the received length matter to
the claims, the concrete value is immaterial. -/
def HVSOCK_HDR_LEN : Nat := 24

/-- Error code `EINVAL`. -/
def EINVAL : Nat := 22
/-- Error code `EADDRINUSE`. -/
def EADDRINUSE : Nat := 98
/-- Error code `ENOTCONN`. -/
def ENOTCONN : Nat := 107
/-- Error code `EOPNOTSUPP`. -/
def EOPNOTSUPP : Nat := 95
/-- Error code `EPIPE`. -/
def EPIPE : Nat := 32
/-- Error code `EDESTADDRREQ`. -/
def EDESTADDRREQ : Nat := 89
/-- Error code `EAGAIN`. -/
def EAGAIN : Nat := 11
/-- Error code `EINTR`. -/
def EINTR : Nat := 4
/-- Error code `ERESTARTSYS`. -/
def ERESTARTSYS : Nat := 512
/-- Error code `EMFILE`. -/
def EMFILE : Nat := 24
/-- Error code `ENOMEM`. -/
def ENOMEM : Nat := 12

/-- `sock_intr_errno(timeo)`:
`timeo == MAX_SCHEDULE_TIMEOUT ? -ERESTARTSYS : -EINTR`. -/
def sock_intr_errno (timeo : Nat) : Int :=
  if timeo = MAX_SCHEDULE_TIMEOUT then -(ERESTARTSYS : Int) else -(EINTR : Int)

/-! ### Data model: endpoints and the two global registries -/

/-- One `struct hvsock_sock` together with the `struct sock` / `struct
socket` fields the driver reads and writes.  `id` is the identity of the
kernel object (its address); `localServiceId`/`remoteServiceId` are the
service identifiers of `local_addr`/`remote_addr` (`SHV_SERVICE_ID_ANY`
meaning unbound, per `hvsock_addr_bound`). -/
structure Endpoint where
  id : Nat
  skState : Nat
  sockState : Nat
  localServiceId : Nat
  remoteServiceId : Nat
  channel : Option Nat
  skShutdown : Nat
  peerShutdown : Nat
  skErr : Nat
  done : Bool
  ackBacklog : Nat
  maxAckBacklog : Nat
  acceptQueue : List Nat
  recvDataLen : Nat
  recvDataOffset : Nat
deriving DecidableEq

/-- The process-wide state guarded by `hvsock_mutex`: every live socket,
plus the membership lists `hvsock_bound_list` and `hvsock_connected_list`
(which hold endpoint identifiers; `list_add` prepends). -/
structure HvState where
  socks : List Endpoint
  boundList : List Nat
  connectedList : List Nat
deriving DecidableEq

/-- Dereference an endpoint identifier (first record with that `id`). -/
def getSockIn : List Endpoint → Nat → Option Endpoint
  | [], _ => none
  | e :: rest, i => if e.id = i then some e else getSockIn rest i

/-- Dereference an endpoint identifier in a global state. -/
def getSock (st : HvState) (i : Nat) : Option Endpoint :=
  getSockIn st.socks i

/-- Replace the record of endpoint `i` by `f` applied to it. -/
def updateSockIn (l : List Endpoint) (i : Nat) (f : Endpoint → Endpoint) :
    List Endpoint :=
  l.map (fun e => if e.id = i then f e else e)

/-- Replace the record of endpoint `i` in a global state. -/
def updateSock (st : HvState) (i : Nat) (f : Endpoint → Endpoint) : HvState :=
  { st with socks := updateSockIn st.socks i f }

/-- `list_for_each_entry` scan over a registry: return the first endpoint in
`ids` satisfying `p`. -/
def findByIds (socks : List Endpoint) (p : Endpoint → Bool) :
    List Nat → Option Endpoint
  | [] => none
  | i :: rest =>
    match getSockIn socks i with
    | some e => if p e then some e else findByIds socks p rest
    | none => findByIds socks p rest

/-- `__hvsock_find_bound_socket`: scan the bound list for a socket whose
`local_addr.shv_service_id` equals the given service identifier. -/
def __hvsock_find_bound_socket (st : HvState) (svc : Nat) : Option Endpoint :=
  findByIds st.socks (fun e => e.localServiceId == svc) st.boundList

/-- `__hvsock_find_connected_socket_by_channel`: scan the connected list for
the socket owning the channel. -/
def __hvsock_find_connected_socket_by_channel (st : HvState) (ch : Nat) :
    Option Endpoint :=
  findByIds st.socks (fun e => e.channel == some ch) st.connectedList

/-- `__hvsock_insert_bound`: `list_add` prepends to the bound list (the
`sock_hold` reference counting is outside the model). -/
def __hvsock_insert_bound (st : HvState) (i : Nat) : HvState :=
  { st with boundList := i :: st.boundList }

/-- `hvsock_insert_connected`: `list_add` prepends to the connected list. -/
def hvsock_insert_connected (st : HvState) (i : Nat) : HvState :=
  { st with connectedList := i :: st.connectedList }

/-- `__hvsock_create(net, sock=NULL, ...)`: fresh endpoint with both
addresses wildcard, `sk_state = 0`, `SOCK_DONE` cleared, empty accept queue
and an empty receive cursor. -/
def defaultEndpoint (newId : Nat) : Endpoint :=
  { id := newId, skState := 0, sockState := 0,
    localServiceId := SHV_SERVICE_ID_ANY, remoteServiceId := SHV_SERVICE_ID_ANY,
    channel := none, skShutdown := 0, peerShutdown := 0, skErr := 0,
    done := false, ackBacklog := 0, maxAckBacklog := 0, acceptQueue := [],
    recvDataLen := 0, recvDataOffset := 0 }

/-! ### Bind -/

/-- The generated-then-tested wildcard candidates of the
`do { uuid_le_gen(...); } while (__hvsock_find_bound_socket(...))` loop:
take the first candidate with no bound match. -/
def genFreshId (st : HvState) : List Nat → Option Nat
  | [] => none
  | g :: rest =>
    if (__hvsock_find_bound_socket st g).isSome then genFreshId st rest
    else some g

/-- `__hvsock_do_bind`, with the random-uuid generator supplied as the
candidate list `gen` (the C loop generates until fresh; `none` models a
generator that never produced a fresh identifier).  On success the socket's
`local_addr` is set to the committed identifier and the socket is inserted
into the bound list. -/
def __hvsock_do_bind (st : HvState) (skId : Nat) (svcId : Nat)
    (gen : List Nat) : Option (Int × HvState) :=
  if svcId = SHV_SERVICE_ID_ANY then
    match genFreshId st gen with
    | none => none
    | some g =>
      some (0, __hvsock_insert_bound
        (updateSock st skId (fun e => { e with localServiceId := g })) skId)
  else
    if (__hvsock_find_bound_socket st svcId).isSome then
      some (-(EADDRINUSE : Int), st)
    else
      some (0, __hvsock_insert_bound
        (updateSock st skId (fun e => { e with localServiceId := svcId })) skId)

/-! ### Accept queue -/

/-- `hvsock_enqueue_accept(listener, connected)`: `list_add_tail` appends the
child to the listener's accept queue and `sk_ack_backlog++`. -/
def hvsock_enqueue_accept (st : HvState) (listenerId childId : Nat) : HvState :=
  updateSock st listenerId (fun e =>
    { e with acceptQueue := e.acceptQueue ++ [childId],
             ackBacklog := e.ackBacklog + 1 })

/-- `hvsock_dequeue_accept(listener)`: pop the queue head and
`sk_ack_backlog--`, or return `NULL` on an empty queue. -/
def hvsock_dequeue_accept (st : HvState) (listenerId : Nat) :
    Option Nat × HvState :=
  match getSock st listenerId with
  | none => (none, st)
  | some l =>
    match l.acceptQueue with
    | [] => (none, st)
    | c :: _ =>
      (some c, updateSock st listenerId (fun e =>
        { e with acceptQueue := e.acceptQueue.tail,
                 ackBacklog := e.ackBacklog - 1 }))

/-! ### Handshake arrival and channel rescission -/

/-- `hvsock_open_connection(channel)`.  `instance`/`service` are the
channel offer's `if_instance`/`if_type` identifiers, `newId` the address the
allocator would give a new child socket, `allocOk` whether `__hvsock_create`
succeeds, and `openRet` the result of `vmbus_open` (whichever path reaches
it).  On a `vmbus_open` failure the channel pointer is set and then reset to
`NULL` (and the fresh child socket, if any, is released), so the state is
returned unchanged. -/
def hvsock_open_connection (st : HvState) (ch instServiceId targetServiceId : Nat)
    (newId : Nat) (allocOk : Bool) (openRet : Int) : Int × HvState :=
  match __hvsock_find_bound_socket st instServiceId with
  | some sk =>
    -- It is from the guest client's connect().
    if sk.skState ≠ SS_CONNECTING then (-6, st)  -- -ENXIO
    else if openRet ≠ 0 then (openRet, st)
    else
      (0, hvsock_insert_connected
        (updateSock st sk.id (fun e =>
          { e with channel := some ch, skState := SS_CONNECTED,
                   sockState := SS_CONNECTED })) sk.id)
  | none =>
    -- Now we suppose it is from a host client's connect().
    match __hvsock_find_bound_socket st targetServiceId with
    | none => (-6, st)  -- -ENXIO: no guest server listening
    | some sk =>
      if sk.skState ≠ SS_LISTEN then (-6, st)  -- -ENXIO
      else if sk.maxAckBacklog ≤ sk.ackBacklog then (-(EMFILE : Int), st)
      else if ¬ allocOk then (-(ENOMEM : Int), st)
      else if openRet ≠ 0 then (openRet, st)
      else
        let child := { defaultEndpoint newId with
          skState := SS_CONNECTED, localServiceId := targetServiceId,
          remoteServiceId := instServiceId, channel := some ch }
        let st1 : HvState := { st with socks := st.socks ++ [child] }
        hvsock_enqueue_accept (hvsock_insert_connected st1 newId) sk.id newId
          |> fun st2 => (0, st2)

/-- `hvsock_close_connection(channel)` (the rescind callback): find the
connected socket owning the channel; if none, no-op; otherwise mark both
socket states `SS_UNCONNECTED`, set `SOCK_DONE`, OR both peer-shutdown bits
and call `sk_state_change` (the returned identifier records whose waiters
were woken). -/
def hvsock_close_connection (st : HvState) (ch : Nat) : HvState × Option Nat :=
  match __hvsock_find_connected_socket_by_channel st ch with
  | none => (st, none)
  | some sk =>
    (updateSock st sk.id (fun e =>
      { e with sockState := SS_UNCONNECTED, skState := SS_UNCONNECTED,
               done := true,
               peerShutdown := e.peerShutdown ||| (SEND_SHUTDOWN ||| RCV_SHUTDOWN) }),
     some sk.id)

/-! ### listen and shutdown -/

/-- `hvsock_listen(sock, backlog)`. -/
def hvsock_listen (e : Endpoint) (sockType : Nat) (backlog : Int) :
    Int × Endpoint :=
  if sockType ≠ SOCK_STREAM then (-(EOPNOTSUPP : Int), e)
  else if e.sockState ≠ SS_UNCONNECTED then (-(EINVAL : Int), e)
  else if backlog ≤ 0 then (-(EINVAL : Int), e)
  else
    -- This is an artificial limit.
    let backlog1 : Int := if backlog > 128 then 128 else backlog
    if e.localServiceId = SHV_SERVICE_ID_ANY then (-(EINVAL : Int), e)
    else
      (0, { e with ackBacklog := 0, maxAckBacklog := backlog1.toNat,
                   skState := SS_LISTEN })

/-- `hvsock_shutdown(sock, mode)`: `SHUT_RD..SHUT_RDWR` is `0..2`; `++mode`
maps it onto the `RCV_SHUTDOWN`/`SEND_SHUTDOWN`/`SHUTDOWN_MASK` bits which
are OR-ed into `sk->sk_shutdown`. -/
def hvsock_shutdown (e : Endpoint) (mode : Int) : Int × Endpoint :=
  if mode < 0 ∨ mode > 2 then (-(EINVAL : Int), e)
  else
    let mode1 : Nat := (mode + 1).toNat
    if e.sockState = SS_UNCONNECTED then (-(ENOTCONN : Int), e)
    else
      (0, { e with sockState := SS_DISCONNECTING,
                   skShutdown := e.skShutdown ||| mode1 })

/-! ### accept

`hvsock_accept` blocks in a `prepare_to_wait`/`schedule_timeout` loop until
`hvsock_dequeue_accept` yields a child or the listener records an error.
Everything that can happen while the listener lock is dropped during a sleep
is an oracle record: children enqueued by `hvsock_open_connection`, a new
listener error, the value `schedule_timeout` returns, and whether a signal
became pending. -/

/-- One sleep of the accept wait loop. -/
structure AcceptStep where
  arrivals : List Nat
  errAfter : Nat
  newTimeout : Nat
  signal : Bool
deriving DecidableEq

/-- `listener->sk_err`. -/
def listenerErr (st : HvState) (listenerId : Nat) : Nat :=
  match getSock st listenerId with
  | some l => l.skErr
  | none => 0

/-- The tail of `hvsock_accept` once the wait loop has exited: surface the
listener error if any; a dequeued child is discarded when an error is being
returned, otherwise it is grafted onto the new socket and handed out. -/
def acceptFinish (st : HvState) (listenerId : Nat) (dequeued : Option Nat) :
    Int × Option Nat × HvState :=
  let err := listenerErr st listenerId
  let ret : Int := if err ≠ 0 then -(err : Int) else 0
  match dequeued with
  | none => (ret, none, st)
  | some c => if ret ≠ 0 then (ret, none, st) else (0, some c, st)

/-- One test of the condition of the `while ((connected =
hvsock_dequeue_accept(listener)) == NULL && listener->sk_err == 0)` loop of
`hvsock_accept`: either the loop exits (through the post-loop error
handling and hand-out, `acceptFinish`) or the task must keep waiting
(`none`). -/
def acceptTry (listenerId : Nat) (st : HvState) :
    Option (Int × Option Nat × HvState) :=
  match hvsock_dequeue_accept st listenerId with
  | (some c, st1) => some (acceptFinish st1 listenerId (some c))
  | (none, _) =>
    if listenerErr st listenerId ≠ 0 then some (acceptFinish st listenerId none)
    else none

/-- One sleep of the accept wait loop: `schedule_timeout(0)` returns
immediately with `0` (which is how a non-blocking accept falls through to
`-EAGAIN`); while the listener lock is dropped, children may be enqueued
and the listener error may change; a pending signal aborts with
`sock_intr_errno`, an expired timeout with `-EAGAIN`. -/
def acceptSleep (listenerId : Nat) (st : HvState) (timeout : Nat)
    (s : AcceptStep) :
    Sum (Int × Option Nat × HvState) (HvState × Nat) :=
  let t1 := if timeout = 0 then 0 else s.newTimeout
  let st1 := s.arrivals.foldl
    (fun acc c => hvsock_enqueue_accept acc listenerId c) st
  let st2 := updateSock st1 listenerId (fun e => { e with skErr := s.errAfter })
  if s.signal then .inl (sock_intr_errno t1, none, st2)
  else if t1 = 0 then .inl (-(EAGAIN : Int), none, st2)
  else .inr (st2, t1)

/-- The accept wait loop: one oracle record per sleep; an exhausted oracle
while still waiting models a task that blocks forever. -/
def acceptLoop (listenerId : Nat) :
    HvState → Nat → List AcceptStep → Option (Int × Option Nat × HvState)
  | st, _, [] => acceptTry listenerId st
  | st, timeout, s :: rest =>
    match acceptTry listenerId st with
    | some out => some out
    | none =>
      match acceptSleep listenerId st timeout s with
      | .inl out => some out
      | .inr (st2, t1) => acceptLoop listenerId st2 t1 rest

/-- `hvsock_accept(sock, newsock, flags)`: `sock_sndtimeo(listener,
O_NONBLOCK)` is `0` when non-blocking, else the socket's send timeout. -/
def hvsock_accept (st : HvState) (listenerId : Nat) (sockType : Nat)
    (nonblock : Bool) (sndtimeo : Nat) (env : List AcceptStep) :
    Option (Int × Option Nat × HvState) :=
  if sockType ≠ SOCK_STREAM then some (-(EOPNOTSUPP : Int), none, st)
  else
    match getSock st listenerId with
    | none => none
    | some l =>
      if l.skState ≠ SS_LISTEN then some (-(EINVAL : Int), none, st)
      else acceptLoop listenerId st (if nonblock then 0 else sndtimeo) env

/-! ### sendmsg

The flow-controlled send loop.  Per iteration of the inner
`while (1)` wait loop, the oracle supplies the `get_ringbuffer_rw_status`
answer, and — if the task actually sleeps — the `schedule_timeout` result,
whether a signal became pending and the values the asynchronously mutable
fields (`sk_err`, `sk_shutdown`, `peer_shutdown`) have after the wake.  Per
chunk of the inner `do { ... } while (total_to_write > 0)` copy loop it
supplies the `memcpy_from_msg` and `hvsock_send_data` results. -/

/-- One iteration of the sendmsg wait loop. -/
structure WaitStep where
  canWrite : Bool
  newTimeout : Nat
  signal : Bool
  errAfter : Nat
  skShutAfter : Nat
  peerShutAfter : Nat
deriving DecidableEq

/-- One chunk of the sendmsg copy loop: the `memcpy_from_msg` and
`hvsock_send_data` (`vmbus_sendpacket`) results. -/
structure ChunkStep where
  memcpyRet : Int
  sendRet : Int
deriving DecidableEq

/-- Exit of the sendmsg wait loop: either a `goto out_wait` with an error,
or ready to write, carrying the current field values. -/
inductive SendWaitOut where
  | aborted (ret : Int)
  | ready (err skShut peerShut timeout : Nat)
deriving DecidableEq

/-- The inner `while (1)` wait loop of `hvsock_sendmsg`: break once the ring
is writable or the error/shutdown conditions hold; `-EAGAIN` for a
non-blocking socket; sleep otherwise, aborting on a pending signal or an
expired timeout. -/
def sendWaitLoop (err skShut peerShut timeout : Nat) :
    List WaitStep → Option SendWaitOut
  | [] => none
  | s :: rest =>
    if s.canWrite ∨ err ≠ 0 ∨ skShut &&& SEND_SHUTDOWN ≠ 0 ∨
        peerShut &&& RCV_SHUTDOWN ≠ 0 then
      some (.ready err skShut peerShut timeout)
    else if timeout = 0 then some (.aborted (-(EAGAIN : Int)))
    else
      let t1 := s.newTimeout
      if s.signal then some (.aborted (sock_intr_errno t1))
      else if t1 = 0 then some (.aborted (-(EAGAIN : Int)))
      else sendWaitLoop s.errAfter s.skShutAfter s.peerShutAfter t1 rest

/-- The `do { ... } while (total_to_write > 0)` copy loop of
`hvsock_sendmsg`: each pass copies `min(HVSOCK_SND_BUF_SZ, total_to_write)`
bytes into the scratch buffer and sends it as one packet; a failing copy or
send exits to `out_wait` with that error; otherwise the loop drains the
whole request.  Returns `(ret, total_written)` at the exit. -/
def sendChunks : Nat → Nat → List ChunkStep → Option (Int × Nat)
  | _, _, [] => none
  | ttw, tw, c :: rest =>
    let to_write := min HVSOCK_SND_BUF_SZ ttw
    if c.memcpyRet ≠ 0 then some (c.memcpyRet, tw)
    else if c.sendRet ≠ 0 then some (c.sendRet, tw)
    else
      let tw1 := tw + to_write
      let ttw1 := ttw - to_write
      if ttw1 = 0 then some (0, tw1)
      else sendChunks ttw1 tw1 rest

/-- The body of `hvsock_sendmsg` between `prepare_to_wait` and `out_wait`:
one pass of the outer `while (total_to_write > 0)` loop (the copy loop
drains the entire request, so the outer loop never runs a second
iteration).  After the wait loop breaks, `sk_err` and the two shutdown
directions are re-checked before copying. -/
def sendOutcome (err skShut peerShut timeout : Nat) (len : Nat)
    (wenv : List WaitStep) (cenv : List ChunkStep) : Option (Int × Nat) :=
  match sendWaitLoop err skShut peerShut timeout wenv with
  | none => none
  | some (.aborted r) => some (r, 0)
  | some (.ready err1 skShut1 peerShut1 _) =>
    if err1 ≠ 0 then some (-(err1 : Int), 0)
    else if skShut1 &&& SEND_SHUTDOWN ≠ 0 ∨ peerShut1 &&& RCV_SHUTDOWN ≠ 0 then
      some (-(EPIPE : Int), 0)
    else sendChunks len 0 cenv

/-- The `out_wait`/`out` tail of `hvsock_sendmsg`: a positive
`total_written` overrides any error, and a (unreachable, `WARN`-ed) zero
result is turned into `-EIO` (-5). -/
def sendFinish (o : Option (Int × Nat)) : Option (Int × Nat) :=
  match o with
  | none => none
  | some (r, tw) =>
    let r1 : Int := if 0 < tw then (tw : Int) else r
    some ((if r1 = 0 then (-5 : Int) else r1), tw)

/-- `hvsock_sendmsg(iocb, sock, msg, len)`, returning `(ret,
total_written)`.  `namelen` is `msg->msg_namelen`, `flags` is
`msg->msg_flags` and `sndtimeo` the socket's send timeout
(`sock_sndtimeo` yields `0` under `MSG_DONTWAIT`). -/
def hvsock_sendmsg (e : Endpoint) (len namelen flags sndtimeo : Nat)
    (wenv : List WaitStep) (cenv : List ChunkStep) : Option (Int × Nat) :=
  if len = 0 then some (-(EINVAL : Int), 0)
  else if flags &&& NOT_MSG_DONTWAIT ≠ 0 then some (-(EOPNOTSUPP : Int), 0)
  -- Callers should not provide a destination with stream sockets.
  else if namelen ≠ 0 then some (-(EOPNOTSUPP : Int), 0)
  -- Send data only if both sides are not shutdown in the direction.
  else if e.skShutdown &&& SEND_SHUTDOWN ≠ 0 ∨
      e.peerShutdown &&& RCV_SHUTDOWN ≠ 0 then some (-(EPIPE : Int), 0)
  else if e.skState ≠ SS_CONNECTED ∨ e.localServiceId = SHV_SERVICE_ID_ANY then
    some (-(ENOTCONN : Int), 0)
  else if e.remoteServiceId = SHV_SERVICE_ID_ANY then
    some (-(EDESTADDRREQ : Int), 0)
  else
    let timeout := if flags &&& MSG_DONTWAIT ≠ 0 then 0 else sndtimeo
    sendFinish (sendOutcome e.skErr e.skShutdown e.peerShutdown timeout len wenv cenv)

/-! ### recvmsg

The receive loop with the per-endpoint pending-packet cursor
(`hvsk->recv.data_len` / `data_offset`).  Per loop iteration the oracle
supplies the `get_ringbuffer_rw_status` answer, the `vmbus_recvpacket`
outcome (`hvsock_recv_data`), the `memcpy_to_msg` result and, if the task
sleeps, the wake-up data as for sendmsg. -/

/-- One iteration of the recvmsg loop. -/
structure RecvStep where
  canRead : Bool
  recvRet : Int
  actualLen : Nat
  dataSize : Nat
  memcpyRet : Int
  signal : Bool
  newTimeout : Nat
  errAfter : Nat
  skShutAfter : Nat
  peerShutAfter : Nat
deriving DecidableEq

/-- The mutable locals and endpoint fields the recvmsg loop works on:
`ret`, `total_to_read`, `copied`, the receive cursor, the asynchronously
mutable socket fields, the remaining timeout, and a count of
`hvsock_recv_data` calls (packets pulled from the ring). -/
structure RecvLoopSt where
  ret : Int
  ttr : Nat
  copied : Nat
  dataLen : Nat
  dataOffset : Nat
  err : Nat
  skShut : Nat
  peerShut : Nat
  timeout : Nat
  pulls : Nat
deriving DecidableEq

/-- How the recvmsg loop exited: `gotoOut` is the malformed-packet
`ret = -EIO; goto out_wait;` path which skips the post-loop fixups;
`broke` is every `break`, which falls through to them. -/
inductive RecvLoopOut where
  | gotoOut (s : RecvLoopSt)
  | broke (s : RecvLoopSt)
deriving DecidableEq

/-- The copy step of the recvmsg loop body: copy
`min(data_len, total_to_read)` bytes out of the pending packet, advancing
the cursor; a failing `memcpy_to_msg` breaks with its error; the loop also
breaks once the request is fully satisfied. -/
def recvCopyStep (s : RecvLoopSt) (step : RecvStep) :
    Sum RecvLoopOut RecvLoopSt :=
  if s.dataLen ≤ s.ttr then
    if step.memcpyRet ≠ 0 then .inl (.broke { s with ret := step.memcpyRet })
    else
      let s1 := { s with ret := 0, copied := s.copied + s.dataLen,
                         ttr := s.ttr - s.dataLen, dataLen := 0, dataOffset := 0 }
      if s1.ttr = 0 then .inl (.broke s1) else .inr s1
  else
    if step.memcpyRet ≠ 0 then .inl (.broke { s with ret := step.memcpyRet })
    else
      .inl (.broke { s with ret := 0, copied := s.copied + s.ttr,
                            dataLen := s.dataLen - s.ttr,
                            dataOffset := s.dataOffset + s.ttr, ttr := 0 })

/-- One iteration of the `while (1)` recvmsg loop: refill the pending
packet from the ring when the cursor is empty (failing with `-EIO` on a
receive error, an empty payload or an oversized payload), copy out, or —
when nothing is readable — break on error/shutdown, return `-EAGAIN` when
non-blocking, stop once something was copied, else sleep. -/
def recvIter (s : RecvLoopSt) (step : RecvStep) : Sum RecvLoopOut RecvLoopSt :=
  let needRefill := s.dataLen = 0
  let canRead := if needRefill then step.canRead else true
  if canRead then
    if needRefill then
      let payloadLen := if step.recvRet ≠ 0 ∨ step.actualLen ≤ HVSOCK_HDR_LEN
        then 0 else step.dataSize
      if step.recvRet ≠ 0 ∨ payloadLen = 0 ∨ HVSOCK_RCV_BUF_SZ < payloadLen then
        .inl (.gotoOut { s with ret := (-5 : Int), pulls := s.pulls + 1 })  -- -EIO
      else
        recvCopyStep { s with dataLen := payloadLen, dataOffset := 0,
                              pulls := s.pulls + 1 } step
    else recvCopyStep s step
  else
    if s.err ≠ 0 ∨ s.skShut &&& RCV_SHUTDOWN ≠ 0 ∨
        s.peerShut &&& SEND_SHUTDOWN ≠ 0 then
      .inl (.broke s)
    else if s.timeout = 0 then .inl (.broke { s with ret := -(EAGAIN : Int) })
    else if 0 < s.copied then .inl (.broke s)
    else
      let t1 := step.newTimeout
      let s1 := { s with timeout := t1, err := step.errAfter,
                         skShut := step.skShutAfter, peerShut := step.peerShutAfter }
      if step.signal then .inl (.broke { s1 with ret := sock_intr_errno t1 })
      else if t1 = 0 then .inl (.broke { s1 with ret := -(EAGAIN : Int) })
      else .inr s1

/-- The recvmsg loop: one oracle record per iteration. -/
def recvLoop : RecvLoopSt → List RecvStep → Option RecvLoopOut
  | _, [] => none
  | s, step :: rest =>
    match recvIter s step with
    | .inl out => some out
    | .inr s1 => recvLoop s1 rest

/-- Write the loop's final field values back into the endpoint record. -/
def recvWriteBack (e : Endpoint) (s : RecvLoopSt) : Endpoint :=
  { e with recvDataLen := s.dataLen, recvDataOffset := s.dataOffset,
           skErr := s.err, skShutdown := s.skShut, peerShutdown := s.peerShut }

/-- `hvsock_recvmsg(iocb, sock, msg, len, flags)`, returning
`(ret, endpoint-after, packets-pulled)`.  `finalCanRead` is the
post-loop `get_ringbuffer_rw_status` answer used to detect an orderly
remote close once the peer has shut down sending and the cursor is empty. -/
def hvsock_recvmsg (e : Endpoint) (len flags rcvtimeo : Nat)
    (renv : List RecvStep) (finalCanRead : Bool) :
    Option (Int × Endpoint × Nat) :=
  if e.skState ≠ SS_CONNECTED then
    -- Recvmsg is supposed to return 0 if a peer performs an orderly
    -- shutdown; SOCK_DONE differentiates that from never-connected.
    some ((if e.done then 0 else -(ENOTCONN : Int)), e, 0)
  else if flags &&& NOT_MSG_DONTWAIT ≠ 0 then some (-(EOPNOTSUPP : Int), e, 0)
  else if e.skShutdown &&& RCV_SHUTDOWN ≠ 0 then some (0, e, 0)
  -- A zero-length receive buffer is valid on Linux; bail out now.
  else if len = 0 then some (0, e, 0)
  else
    let timeout := if flags &&& MSG_DONTWAIT ≠ 0 then 0 else rcvtimeo
    let s0 : RecvLoopSt :=
      { ret := 0, ttr := len, copied := 0, dataLen := e.recvDataLen,
        dataOffset := e.recvDataOffset, err := e.skErr,
        skShut := e.skShutdown, peerShut := e.peerShutdown,
        timeout := timeout, pulls := 0 }
    match recvLoop s0 renv with
    | none => none
    | some (.gotoOut s) => some (s.ret, recvWriteBack e s, s.pulls)
    | some (.broke s) =>
      let ret1 : Int :=
        if s.err ≠ 0 then -(s.err : Int)
        else if s.skShut &&& RCV_SHUTDOWN ≠ 0 then 0
        else s.ret
      if 0 < s.copied then
        -- If the other side has shut down for sending and there is
        -- nothing more to read, then we modify the socket state.
        if s.peerShut &&& SEND_SHUTDOWN ≠ 0 ∧ s.dataLen = 0 ∧ finalCanRead = false then
          some ((s.copied : Int),
            { recvWriteBack e s with skState := SS_UNCONNECTED, done := true },
            s.pulls)
        else some ((s.copied : Int), recvWriteBack e s, s.pulls)
      else some (ret1, recvWriteBack e s, s.pulls)

/-! ### Helper lemmas about lookups and updates -/

theorem getSockIn_id {socks : List Endpoint} {i : Nat} {e : Endpoint}
    (h : getSockIn socks i = some e) : e.id = i := by
  induction socks with
  | nil => exact absurd h (by rw [getSockIn]; exact Option.noConfusion)
  | cons a rest ih =>
    rw [getSockIn] at h
    by_cases ha : a.id = i
    · rw [if_pos ha] at h
      cases h
      exact ha
    · rw [if_neg ha] at h
      exact ih h

theorem getSockIn_update_self {socks : List Endpoint} {i : Nat}
    {f : Endpoint → Endpoint} {e : Endpoint} (hf : ∀ x, (f x).id = x.id)
    (h : getSockIn socks i = some e) :
    getSockIn (updateSockIn socks i f) i = some (f e) := by
  induction socks with
  | nil => exact absurd h (by rw [getSockIn]; exact Option.noConfusion)
  | cons a rest ih =>
    rw [getSockIn] at h
    simp only [updateSockIn, List.map_cons]
    rw [getSockIn]
    by_cases ha : a.id = i
    · rw [if_pos ha] at h
      injection h with h2
      subst h2
      rw [if_pos ha, if_pos (by rw [hf a]; exact ha)]
    · rw [if_neg ha] at h
      rw [if_neg ha, if_neg ha]
      simpa only [updateSockIn] using ih h

theorem getSockIn_update_other {socks : List Endpoint} {i j : Nat}
    {f : Endpoint → Endpoint} (hf : ∀ x, (f x).id = x.id) (hij : j ≠ i) :
    getSockIn (updateSockIn socks i f) j = getSockIn socks j := by
  induction socks with
  | nil => rfl
  | cons a rest ih =>
    simp only [updateSockIn, List.map_cons]
    rw [getSockIn, getSockIn]
    by_cases ha : a.id = i
    · have h1 : (if a.id = i then f a else a).id ≠ j := by
        rw [if_pos ha, hf a, ha]
        exact fun h => hij h.symm
      have h2 : a.id ≠ j := by
        rw [ha]
        exact fun h => hij h.symm
      rw [if_neg h1, if_neg h2]
      simpa only [updateSockIn] using ih
    · rw [if_neg ha]
      by_cases haj : a.id = j
      · rw [if_pos haj, if_pos haj]
      · rw [if_neg haj, if_neg haj]
        simpa only [updateSockIn] using ih

theorem getSockIn_update_none {socks : List Endpoint} {i : Nat}
    {f : Endpoint → Endpoint}
    (h : getSockIn socks i = none) :
    getSockIn (updateSockIn socks i f) i = none := by
  induction socks with
  | nil => rfl
  | cons a rest ih =>
    rw [getSockIn] at h
    by_cases ha : a.id = i
    · rw [if_pos ha] at h
      exact Option.noConfusion h
    · rw [if_neg ha] at h
      simp only [updateSockIn, List.map_cons]
      rw [getSockIn, if_neg ha, if_neg ha]
      simpa only [updateSockIn] using ih h

theorem getSockIn_append_left {l1 l2 : List Endpoint} {i : Nat} {e : Endpoint}
    (h : getSockIn l1 i = some e) : getSockIn (l1 ++ l2) i = some e := by
  induction l1 with
  | nil => exact absurd h (by rw [getSockIn]; exact Option.noConfusion)
  | cons a rest ih =>
    rw [getSockIn] at h
    rw [List.cons_append, getSockIn]
    by_cases ha : a.id = i
    · rw [if_pos ha] at h ⊢
      exact h
    · rw [if_neg ha] at h ⊢
      exact ih h

theorem getSockIn_append_right {l1 l2 : List Endpoint} {i : Nat}
    (h : getSockIn l1 i = none) : getSockIn (l1 ++ l2) i = getSockIn l2 i := by
  induction l1 with
  | nil => rfl
  | cons a rest ih =>
    rw [getSockIn] at h
    rw [List.cons_append, getSockIn]
    by_cases ha : a.id = i
    · rw [if_pos ha] at h
      exact Option.noConfusion h
    · rw [if_neg ha] at h ⊢
      exact ih h

theorem findByIds_some {socks : List Endpoint} {p : Endpoint → Bool}
    {ids : List Nat} {e : Endpoint} (h : findByIds socks p ids = some e) :
    p e = true ∧ getSockIn socks e.id = some e ∧ e.id ∈ ids := by
  induction ids with
  | nil => simp [findByIds] at h
  | cons i rest ih =>
    rw [findByIds] at h
    cases hg : getSockIn socks i with
    | none =>
      rw [hg] at h
      have := ih h
      exact ⟨this.1, this.2.1, List.mem_cons_of_mem _ this.2.2⟩
    | some a =>
      rw [hg] at h
      by_cases hp : p a
      · simp [hp] at h
        subst h
        exact ⟨hp, by rw [getSockIn_id hg]; exact hg, by
          rw [getSockIn_id hg]; exact List.mem_cons_self _ _⟩
      · simp [hp] at h
        have := ih h
        exact ⟨this.1, this.2.1, List.mem_cons_of_mem _ this.2.2⟩

theorem findByIds_none {socks : List Endpoint} {p : Endpoint → Bool}
    {ids : List Nat} (h : findByIds socks p ids = none) :
    ∀ i ∈ ids, ∀ e, getSockIn socks i = some e → p e = false := by
  induction ids with
  | nil => simp
  | cons i rest ih =>
    rw [findByIds] at h
    intro j hj e he
    cases hg : getSockIn socks i with
    | none =>
      rw [hg] at h
      rcases List.mem_cons.mp hj with hji | hjr
      · subst hji; rw [hg] at he; exact absurd he (by simp)
      · exact ih h j hjr e he
    | some a =>
      rw [hg] at h
      by_cases hp : p a
      · simp [hp] at h
      · simp [hp] at h
        rcases List.mem_cons.mp hj with hji | hjr
        · subst hji
          rw [hg] at he
          cases he
          simpa using hp
        · exact ih h j hjr e he

theorem genFreshId_some {st : HvState} {gen : List Nat} {g : Nat}
    (h : genFreshId st gen = some g) :
    __hvsock_find_bound_socket st g = none := by
  induction gen with
  | nil => simp [genFreshId] at h
  | cons a rest ih =>
    rw [genFreshId] at h
    by_cases ha : (__hvsock_find_bound_socket st a).isSome
    · simp [ha] at h; exact ih h
    · simp [ha] at h
      subst h
      exact Option.not_isSome_iff_eq_none.mp ha

theorem genFreshId_isSome {st : HvState} {gen : List Nat} {g : Nat}
    (hg : g ∈ gen) (hfresh : __hvsock_find_bound_socket st g = none) :
    (genFreshId st gen).isSome := by
  induction gen with
  | nil => simp at hg
  | cons a rest ih =>
    rw [genFreshId]
    by_cases ha : (__hvsock_find_bound_socket st a).isSome
    · simp [ha]
      rcases List.mem_cons.mp hg with hga | hgr
      · subst hga; rw [hfresh] at ha; simp at ha
      · exact ih hgr
    · simp [ha]

/-- The `out_wait`/`out` tail of sendmsg in isolation: whatever the loops
did, the call reports a positive `total_written` as the result, reports a
negative error only with `total_written = 0`, and never returns `0`. -/
theorem sendFinish_spec {o : Option (Int × Nat)} {r : Int} {tw : Nat}
    (h : sendFinish o = some (r, tw)) :
    (0 < tw → r = (tw : Int)) ∧ (r < 0 → tw = 0) ∧ r ≠ 0 := by
  rcases o with _ | ⟨r0, tw0⟩
  · simp [sendFinish] at h
  · simp only [sendFinish, Option.some.injEq, Prod.mk.injEq] at h
    obtain ⟨hr, htw⟩ := h
    rw [← htw]
    by_cases hpos : 0 < tw0
    · rw [if_pos hpos] at hr
      have htwz : ((tw0 : Int)) ≠ 0 := by
        have : (0 : Int) < (tw0 : Int) := Int.natCast_pos.mpr hpos
        omega
      rw [if_neg htwz] at hr
      rw [← hr]
      refine ⟨fun _ => rfl, fun hlt => ?_, htwz⟩
      have : (0 : Int) < (tw0 : Int) := Int.natCast_pos.mpr hpos
      omega
    · have htw0 : tw0 = 0 := by omega
      rw [htw0] at hr ⊢
      rw [if_neg (by omega : ¬ (0 : Nat) < 0)] at hr
      by_cases hr0 : r0 = 0
      · rw [if_pos hr0] at hr
        rw [← hr]
        exact ⟨fun hc => absurd hc (by omega), fun _ => rfl, by decide⟩
      · rw [if_neg hr0] at hr
        rw [← hr]
        exact ⟨fun hc => absurd hc (by omega), fun _ => rfl, hr0⟩

/-- Claim C1: for every send call, if at least one byte was transferred
before an error, shutdown, signal or timeout stopped the loop, the call
returns that positive byte count; a negative error is returned only when
zero bytes were transferred overall; the call never returns exactly zero,
and a zero-length request is rejected up front with `-EINVAL`. -/
theorem c1_sendmsg_partial_success (e : Endpoint)
    (len namelen flags sndtimeo : Nat) (wenv : List WaitStep)
    (cenv : List ChunkStep) (r : Int) (tw : Nat)
    (h : hvsock_sendmsg e len namelen flags sndtimeo wenv cenv = some (r, tw)) :
    (0 < tw → r = (tw : Int)) ∧ (r < 0 → tw = 0) ∧ r ≠ 0 ∧
    (len = 0 → r = -(EINVAL : Int) ∧ tw = 0) := by
  rw [hvsock_sendmsg] at h
  by_cases h1 : len = 0
  · rw [if_pos h1] at h
    simp only [Option.some.injEq, Prod.mk.injEq] at h
    obtain ⟨hr, htw⟩ := h
    subst hr; subst htw
    exact ⟨fun hc => absurd hc (by omega), fun _ => rfl, by decide,
      fun _ => ⟨rfl, rfl⟩⟩
  · rw [if_neg h1] at h
    suffices hc : (0 < tw → r = (tw : Int)) ∧ (r < 0 → tw = 0) ∧ r ≠ 0 by
      exact ⟨hc.1, hc.2.1, hc.2.2, fun hl => absurd hl h1⟩
    by_cases h2 : flags &&& NOT_MSG_DONTWAIT ≠ 0
    · rw [if_pos h2] at h
      simp only [Option.some.injEq, Prod.mk.injEq] at h
      obtain ⟨hr, htw⟩ := h
      subst hr; subst htw
      exact ⟨fun hc => absurd hc (by omega), fun _ => rfl, by decide⟩
    · rw [if_neg h2] at h
      by_cases h3 : namelen ≠ 0
      · rw [if_pos h3] at h
        simp only [Option.some.injEq, Prod.mk.injEq] at h
        obtain ⟨hr, htw⟩ := h
        subst hr; subst htw
        exact ⟨fun hc => absurd hc (by omega), fun _ => rfl, by decide⟩
      · rw [if_neg h3] at h
        by_cases h4 : e.skShutdown &&& SEND_SHUTDOWN ≠ 0 ∨
            e.peerShutdown &&& RCV_SHUTDOWN ≠ 0
        · rw [if_pos h4] at h
          simp only [Option.some.injEq, Prod.mk.injEq] at h
          obtain ⟨hr, htw⟩ := h
          subst hr; subst htw
          exact ⟨fun hc => absurd hc (by omega), fun _ => rfl, by decide⟩
        · rw [if_neg h4] at h
          by_cases h5 : e.skState ≠ SS_CONNECTED ∨
              e.localServiceId = SHV_SERVICE_ID_ANY
          · rw [if_pos h5] at h
            simp only [Option.some.injEq, Prod.mk.injEq] at h
            obtain ⟨hr, htw⟩ := h
            subst hr; subst htw
            exact ⟨fun hc => absurd hc (by omega), fun _ => rfl, by decide⟩
          · rw [if_neg h5] at h
            by_cases h6 : e.remoteServiceId = SHV_SERVICE_ID_ANY
            · rw [if_pos h6] at h
              simp only [Option.some.injEq, Prod.mk.injEq] at h
              obtain ⟨hr, htw⟩ := h
              subst hr; subst htw
              exact ⟨fun hc => absurd hc (by omega), fun _ => rfl, by decide⟩
            · rw [if_neg h6] at h
              exact sendFinish_spec h

/-- A healthy connected endpoint, for concrete witnesses. -/
def witnessConnected : Endpoint :=
  { defaultEndpoint 1 with
    skState := SS_CONNECTED, localServiceId := 5, remoteServiceId := 9 }

/-- An immediately-writable wait observation, for concrete witnesses. -/
def witnessWaitStep : WaitStep :=
  { canWrite := true, newTimeout := 0, signal := false, errAfter := 0,
    skShutAfter := 0, peerShutAfter := 0 }

/-- Witness for C1: a concrete 5-byte send on a healthy connected endpoint
whose ring is immediately writable transfers 5 bytes and returns 5. -/
theorem c1_sendmsg_partial_success_witness :
    hvsock_sendmsg witnessConnected 5 0 0 1000 [witnessWaitStep]
      [{ memcpyRet := 0, sendRet := 0 }] = some (5, 5) ∧
    ((0 < 5 → (5 : Int) = ((5 : Nat) : Int)) ∧ ((5 : Int) < 0 → (5 : Nat) = 0) ∧
      (5 : Int) ≠ 0 ∧ ((5 : Nat) = 0 → (5 : Int) = -(EINVAL : Int) ∧ (5 : Nat) = 0)) :=
  ⟨by decide,
    c1_sendmsg_partial_success witnessConnected 5 0 0 1000 [witnessWaitStep]
      [{ memcpyRet := 0, sendRet := 0 }] 5 5 (by decide)⟩

/-- Claim C2: a recv call on an endpoint that is not `SS_CONNECTED` returns
0 bytes when `SOCK_DONE` is set and `-ENOTCONN` otherwise; with supported
flags, a recv with local receive already shut down returns 0 bytes, and a
zero-length request returns 0 bytes — all without pulling any packet or
changing the receive cursor (the endpoint comes back unchanged and the pull
count is 0). -/
theorem c2_recvmsg_preconditions (e : Endpoint) (len flags rcvtimeo : Nat)
    (renv : List RecvStep) (fcr : Bool) :
    (e.skState ≠ SS_CONNECTED →
      hvsock_recvmsg e len flags rcvtimeo renv fcr =
        some ((if e.done then 0 else -(ENOTCONN : Int)), e, 0)) ∧
    (flags &&& NOT_MSG_DONTWAIT = 0 → e.skState = SS_CONNECTED →
      e.skShutdown &&& RCV_SHUTDOWN ≠ 0 →
      hvsock_recvmsg e len flags rcvtimeo renv fcr = some (0, e, 0)) ∧
    (flags &&& NOT_MSG_DONTWAIT = 0 → e.skState = SS_CONNECTED → len = 0 →
      hvsock_recvmsg e len flags rcvtimeo renv fcr = some (0, e, 0)) := by
  refine ⟨fun hst => ?_, fun hf hst hsh => ?_, fun hf hst hlen => ?_⟩
  · rw [hvsock_recvmsg, if_pos hst]
  · rw [hvsock_recvmsg, if_neg (by simp [hst]), if_neg (by simp [hf]),
      if_pos hsh]
  · rw [hvsock_recvmsg, if_neg (by simp [hst]), if_neg (by simp [hf])]
    by_cases hsh : e.skShutdown &&& RCV_SHUTDOWN ≠ 0
    · rw [if_pos hsh]
    · rw [if_neg hsh, if_pos hlen]

/-- A disconnected endpoint with the orderly-done flag set, for witnesses. -/
def witnessDone : Endpoint :=
  { defaultEndpoint 3 with skState := SS_UNCONNECTED, done := true }

/-- Witness for C2: on a concrete endpoint with `SOCK_DONE` set but state
`SS_UNCONNECTED`, recv returns 0 bytes with the endpoint untouched. -/
theorem c2_recvmsg_preconditions_witness :
    hvsock_recvmsg witnessDone 10 0 0 [] false =
      some ((if witnessDone.done then 0 else -(ENOTCONN : Int)), witnessDone, 0) :=
  (c2_recvmsg_preconditions witnessDone 10 0 0 [] false).1 (by decide)

/-- Claim C6: with a stream-type socket, listen(backlog) fails with
`-EINVAL` whenever the backlog is zero or negative, the socket is not in
the unconnected state, or no address is bound; otherwise it succeeds,
setting state `SS_LISTEN`, resetting the current backlog count to 0 and
clamping the maximum backlog to at most 128. -/
theorem c6_listen_validation (e : Endpoint) (backlog : Int) :
    ((backlog ≤ 0 ∨ e.sockState ≠ SS_UNCONNECTED ∨
        e.localServiceId = SHV_SERVICE_ID_ANY) →
      hvsock_listen e SOCK_STREAM backlog = (-(EINVAL : Int), e)) ∧
    (0 < backlog → e.sockState = SS_UNCONNECTED →
      e.localServiceId ≠ SHV_SERVICE_ID_ANY →
      hvsock_listen e SOCK_STREAM backlog =
        (0, { e with ackBacklog := 0, maxAckBacklog := (min backlog 128).toNat,
                     skState := SS_LISTEN })) := by
  constructor
  · intro hbad
    rw [hvsock_listen, if_neg (by simp [SOCK_STREAM])]
    rcases hbad with hb | hs | ha
    · by_cases hs : e.sockState ≠ SS_UNCONNECTED
      · rw [if_pos hs]
      · rw [if_neg hs, if_pos hb]
    · rw [if_pos hs]
    · by_cases hs2 : e.sockState ≠ SS_UNCONNECTED
      · rw [if_pos hs2]
      · rw [if_neg hs2]
        by_cases hb : backlog ≤ 0
        · rw [if_pos hb]
        · rw [if_neg hb, if_pos ha]
  · intro hb hs ha
    rw [hvsock_listen, if_neg (by simp [SOCK_STREAM]), if_neg (by simp [hs]),
      if_neg (by omega), if_neg ha]
    have : (if backlog > 128 then (128 : Int) else backlog) = min backlog 128 := by
      by_cases hc : backlog > 128
      · rw [if_pos hc]; omega
      · rw [if_neg hc]; omega
    rw [this]

/-- A bound, unconnected endpoint, for witnesses. -/
def witnessBound : Endpoint :=
  { defaultEndpoint 2 with sockState := SS_UNCONNECTED, localServiceId := 7 }

/-- Witness for C6: a concrete listen with backlog 300 on a bound,
unconnected endpoint succeeds and clamps the maximum backlog to 128. -/
theorem c6_listen_validation_witness :
    hvsock_listen witnessBound SOCK_STREAM 300 =
      (0, { witnessBound with
            ackBacklog := 0, maxAckBacklog := ((min 300 128 : Int)).toNat,
            skState := SS_LISTEN }) :=
  (c6_listen_validation witnessBound 300).2 (by decide) (by decide) (by decide)

/-- Claim C9 (amended): for every send call with a nonzero-length payload
that supplies a destination address (nonzero `msg_namelen`), the call fails
with `-EOPNOTSUPP` with zero bytes transferred, for every endpoint state —
in particular before any connection-state or shutdown check can produce a
different error (the model of sendmsg is pure in the endpoint, so nothing
is mutated). -/
theorem c9_sendmsg_destination (e : Endpoint)
    (len namelen flags sndtimeo : Nat) (wenv : List WaitStep)
    (cenv : List ChunkStep) (hlen : len ≠ 0) (hname : namelen ≠ 0) :
    hvsock_sendmsg e len namelen flags sndtimeo wenv cenv =
      some (-(EOPNOTSUPP : Int), 0) := by
  rw [hvsock_sendmsg, if_neg hlen]
  by_cases h2 : flags &&& NOT_MSG_DONTWAIT ≠ 0
  · rw [if_pos h2]
  · rw [if_neg h2, if_pos hname]

/-- Counterexample for C9 as stated: a zero-length send that does supply a
destination address fails with `-EINVAL`, not `-EOPNOTSUPP` (the
zero-length check precedes the destination check). -/
theorem c9_sendmsg_destination_counterexample :
    hvsock_sendmsg (defaultEndpoint 1) 0 1 0 0 [] [] =
      some (-(EINVAL : Int), 0) ∧
    -(EINVAL : Int) ≠ -(EOPNOTSUPP : Int) := by
  constructor
  · decide
  · decide

/-- Witness for C9: a concrete 4-byte send with a destination address on a
fully connected endpoint still fails with `-EOPNOTSUPP`. -/
theorem c9_sendmsg_destination_witness :
    hvsock_sendmsg witnessConnected 4 16 0 0 [] [] =
      some (-(EOPNOTSUPP : Int), 0) :=
  c9_sendmsg_destination witnessConnected 4 16 0 0 [] [] (by decide) (by decide)

/-- Claim C10: shutdown(mode) fails with `-EINVAL` for any direction
outside 0..2, fails with `-ENOTCONN` when the socket state is unconnected,
and otherwise succeeds, OR-ing the mapped direction bits (receive = 1,
send = 2, both = 3) into the local shutdown mask, setting the socket state
to `SS_DISCONNECTING`, and never clearing previously set shutdown bits. -/
theorem c10_shutdown_mapping (e : Endpoint) (mode : Int) :
    ((mode < 0 ∨ mode > 2) → hvsock_shutdown e mode = (-(EINVAL : Int), e)) ∧
    (0 ≤ mode → mode ≤ 2 → e.sockState = SS_UNCONNECTED →
      hvsock_shutdown e mode = (-(ENOTCONN : Int), e)) ∧
    (0 ≤ mode → mode ≤ 2 → e.sockState ≠ SS_UNCONNECTED →
      (hvsock_shutdown e mode).1 = 0 ∧
      (hvsock_shutdown e mode).2.sockState = SS_DISCONNECTING ∧
      (hvsock_shutdown e mode).2.skShutdown = e.skShutdown |||
        (if mode = 0 then RCV_SHUTDOWN
         else if mode = 1 then SEND_SHUTDOWN else SHUTDOWN_MASK) ∧
      e.skShutdown ||| (hvsock_shutdown e mode).2.skShutdown =
        (hvsock_shutdown e mode).2.skShutdown) := by
  refine ⟨fun hbad => ?_, fun h0 h2 hun => ?_, fun h0 h2 hun => ?_⟩
  · rw [hvsock_shutdown, if_pos hbad]
  · rw [hvsock_shutdown, if_neg (by omega), if_pos hun]
  · rw [hvsock_shutdown, if_neg (by omega), if_neg hun]
    refine ⟨rfl, rfl, ?_, ?_⟩
    · have : mode = 0 ∨ mode = 1 ∨ mode = 2 := by omega
      rcases this with hm | hm | hm <;> subst hm <;> rfl
    · rw [← Nat.or_assoc, Nat.or_self]

/-- A connected endpoint with receive already shut down, for witnesses. -/
def witnessHalfShut : Endpoint :=
  { defaultEndpoint 4 with
    sockState := SS_CONNECTED, skShutdown := RCV_SHUTDOWN }

/-- Witness for C10: a concrete `SHUT_WR` (mode 1) on a connected socket
that already had receive shut down keeps bit 1 and adds bit 2. -/
theorem c10_shutdown_mapping_witness :
    (hvsock_shutdown witnessHalfShut 1).1 = 0 ∧
    (hvsock_shutdown witnessHalfShut 1).2.sockState = SS_DISCONNECTING ∧
    (hvsock_shutdown witnessHalfShut 1).2.skShutdown =
      RCV_SHUTDOWN ||| SEND_SHUTDOWN :=
  have h := (c10_shutdown_mapping witnessHalfShut 1).2.2
    (by decide) (by decide) (by decide)
  ⟨h.1, h.2.1, by rw [h.2.2.1]; decide⟩

/-- Claim C8: on channel rescission, if no connected endpoint owns the
rescinded channel nothing is modified; otherwise exactly that endpoint gets
both peer-shutdown bits OR-ed in, both its state fields set
`SS_UNCONNECTED` with `SOCK_DONE`, its waiters woken (the wake output names
it), while all its other fields, every other endpoint, and both registries
are unchanged. -/
theorem c8_rescind_effect (st : HvState) (ch : Nat) :
    (__hvsock_find_connected_socket_by_channel st ch = none →
      hvsock_close_connection st ch = (st, none)) ∧
    (∀ e, __hvsock_find_connected_socket_by_channel st ch = some e →
      (hvsock_close_connection st ch).2 = some e.id ∧
      getSock (hvsock_close_connection st ch).1 e.id =
        some { e with
               sockState := SS_UNCONNECTED, skState := SS_UNCONNECTED,
               done := true,
               peerShutdown := e.peerShutdown ||| (SEND_SHUTDOWN ||| RCV_SHUTDOWN) } ∧
      (hvsock_close_connection st ch).1.boundList = st.boundList ∧
      (hvsock_close_connection st ch).1.connectedList = st.connectedList ∧
      ∀ x ∈ st.socks, x.id ≠ e.id →
        x ∈ (hvsock_close_connection st ch).1.socks) := by
  constructor
  · intro hnone
    rw [hvsock_close_connection, hnone]
  · intro e hfound
    have hget : getSockIn st.socks e.id = some e := (findByIds_some hfound).2.1
    have hres : hvsock_close_connection st ch =
        (updateSock st e.id (fun y =>
          { y with sockState := SS_UNCONNECTED, skState := SS_UNCONNECTED,
                   done := true,
                   peerShutdown := y.peerShutdown ||| (SEND_SHUTDOWN ||| RCV_SHUTDOWN) }),
         some e.id) := by
      rw [hvsock_close_connection, hfound]
    rw [hres]
    refine ⟨rfl, ?_, rfl, rfl, ?_⟩
    · exact getSockIn_update_self (fun _ => rfl) hget
    · intro x hx hxid
      have hmem := List.mem_map_of_mem
        (fun y => if y.id = e.id then
          { y with sockState := SS_UNCONNECTED, skState := SS_UNCONNECTED,
                   done := true,
                   peerShutdown := y.peerShutdown ||| (SEND_SHUTDOWN ||| RCV_SHUTDOWN) }
          else y) hx
      simp only [if_neg hxid] at hmem
      exact hmem

/-- A concrete two-socket state: endpoint 1 is connected and owns channel
7, endpoint 2 is an unrelated listener. -/
def witnessConnState : HvState :=
  { socks := [{ defaultEndpoint 1 with
                skState := SS_CONNECTED, sockState := SS_CONNECTED,
                localServiceId := 5, remoteServiceId := 9, channel := some 7 },
              { defaultEndpoint 2 with
                skState := SS_LISTEN, localServiceId := 11, maxAckBacklog := 8 }],
    boundList := [2], connectedList := [1] }

/-- Witness for C8: rescinding channel 7 in the concrete state wakes
endpoint 1, marks it unconnected-done with both peer-shutdown bits, and
leaves the registries alone; rescinding the unknown channel 8 is a no-op. -/
theorem c8_rescind_effect_witness :
    hvsock_close_connection witnessConnState 8 = (witnessConnState, none) ∧
    (hvsock_close_connection witnessConnState 7).2 = some 1 ∧
    (hvsock_close_connection witnessConnState 7).1.connectedList =
      witnessConnState.connectedList :=
  have h7 := (c8_rescind_effect witnessConnState 7).2
    { defaultEndpoint 1 with
      skState := SS_CONNECTED, sockState := SS_CONNECTED,
      localServiceId := 5, remoteServiceId := 9, channel := some 7 }
    (by decide)
  ⟨(c8_rescind_effect witnessConnState 8).1 (by decide), h7.1, h7.2.2.2.1⟩

/-- Claim C4 (amended): the successful handshake that completes a local
connect (a `SS_CONNECTING` endpoint bound to the offer's origin identifier,
with `vmbus_open` succeeding) inserts the endpoint into the connected
registry while leaving it in the bound registry, so immediately afterwards
the endpoint is present in both registries simultaneously. -/
theorem c4_handshake_both_registries (st : HvState)
    (ch instServiceId targetServiceId newId : Nat) (allocOk : Bool)
    (e : Endpoint)
    (h1 : __hvsock_find_bound_socket st instServiceId = some e)
    (h2 : e.skState = SS_CONNECTING) :
    (hvsock_open_connection st ch instServiceId targetServiceId newId
      allocOk 0).1 = 0 ∧
    e.id ∈ (hvsock_open_connection st ch instServiceId targetServiceId newId
      allocOk 0).2.boundList ∧
    e.id ∈ (hvsock_open_connection st ch instServiceId targetServiceId newId
      allocOk 0).2.connectedList := by
  have hres : hvsock_open_connection st ch instServiceId targetServiceId newId
      allocOk 0 =
      (0, hvsock_insert_connected (updateSock st e.id (fun x =>
        { x with channel := some ch, skState := SS_CONNECTED,
                 sockState := SS_CONNECTED })) e.id) := by
    rw [hvsock_open_connection, h1]
    dsimp only
    rw [if_neg (by rw [h2]; exact fun hc => hc rfl),
      if_neg (fun hc => hc rfl)]
  rw [hres]
  refine ⟨rfl, ?_, ?_⟩
  · exact (findByIds_some h1).2.2
  · exact List.mem_cons_self _ _

/-- A concrete state with a single endpoint that wildcard-bound to service
identifier 5 and is `SS_CONNECTING` towards remote service 9 (the state a
socket is in after `bind` + `connect` issued the handshake request). -/
def witnessConnectingState : HvState :=
  { socks := [{ defaultEndpoint 1 with
                skState := SS_CONNECTING, sockState := SS_CONNECTING,
                localServiceId := 5, remoteServiceId := 9 }],
    boundList := [1], connectedList := [] }

/-- Counterexample for C4 as stated: completing the handshake for the
concrete connecting socket leaves endpoint 1 in the bound registry *and*
inserts it into the connected registry — it is in both simultaneously. -/
theorem c4_handshake_both_registries_counterexample :
    (hvsock_open_connection witnessConnectingState 7 5 9 2 true 0).1 = 0 ∧
    1 ∈ (hvsock_open_connection witnessConnectingState 7 5 9 2 true 0).2.boundList ∧
    1 ∈ (hvsock_open_connection witnessConnectingState 7 5 9 2 true 0).2.connectedList := by
  refine ⟨by decide, by decide, by decide⟩

/-- Witness for C4 (amended): the same concrete handshake, obtained through
the general theorem. -/
theorem c4_handshake_both_registries_witness :
    (hvsock_open_connection witnessConnectingState 7 5 9 2 true 0).1 = 0 ∧
    1 ∈ (hvsock_open_connection witnessConnectingState 7 5 9 2 true 0).2.connectedList :=
  have h := c4_handshake_both_registries witnessConnectingState 7 5 9 2 true
    { defaultEndpoint 1 with
      skState := SS_CONNECTING, sockState := SS_CONNECTING,
      localServiceId := 5, remoteServiceId := 9 }
    (by decide) (by decide)
  ⟨h.1, h.2.2⟩

/-! ### C3: bind -/

/-- The service identifiers currently claimed by bound endpoints, in
registry order. -/
def boundSvcIds (st : HvState) : List Nat :=
  st.boundList.filterMap (fun i =>
    (getSockIn st.socks i).map (fun e => e.localServiceId))

theorem not_mem_boundSvcIds_of_find_none {st : HvState} {g : Nat}
    (h : __hvsock_find_bound_socket st g = none) : g ∉ boundSvcIds st := by
  intro hmem
  obtain ⟨i, hi, hsome⟩ := List.mem_filterMap.mp hmem
  obtain ⟨e, he, hloc⟩ := Option.map_eq_some'.mp hsome
  have := findByIds_none h i hi e he
  rw [hloc] at this
  simp at this

theorem boundSvcIds_commit {st : HvState} {skId g : Nat}
    (hnotin : skId ∉ st.boundList)
    (hfresh : __hvsock_find_bound_socket st g = none)
    (hnd : (boundSvcIds st).Nodup) :
    (boundSvcIds (__hvsock_insert_bound
      (updateSock st skId (fun e => { e with localServiceId := g }))
      skId)).Nodup := by
  have hcongr : ∀ i ∈ st.boundList,
      ((getSockIn (updateSockIn st.socks skId
        (fun e => { e with localServiceId := g })) i).map
        (fun e => e.localServiceId)) =
      ((getSockIn st.socks i).map (fun e => e.localServiceId)) := by
    intro i hi
    have hne : i ≠ skId := fun hc => hnotin (hc ▸ hi)
    rw [@getSockIn_update_other st.socks skId i
      (fun e => { e with localServiceId := g }) (fun x => rfl) hne]
  show (List.filterMap (fun i =>
      (getSockIn (updateSockIn st.socks skId
        (fun e => { e with localServiceId := g })) i).map
      (fun e => e.localServiceId)) (skId :: st.boundList)).Nodup
  rw [List.filterMap_cons, List.filterMap_congr hcongr]
  cases hsk0 : getSockIn st.socks skId with
  | none =>
    rw [@getSockIn_update_none st.socks skId
      (fun e => { e with localServiceId := g }) hsk0]
    exact hnd
  | some e0 =>
    rw [@getSockIn_update_self st.socks skId
      (fun e => { e with localServiceId := g }) e0 (fun x => rfl) hsk0]
    exact List.nodup_cons.mpr ⟨not_mem_boundSvcIds_of_find_none hfresh, hnd⟩

/-- Claim C3: wildcard bind succeeds whenever the generator eventually
produces a fresh identifier, and any successful wildcard bind commits an
identifier no other bound endpoint held at the moment of commitment;
a concrete bind fails with `-EADDRINUSE` exactly when a bound endpoint
already claims that identifier and otherwise commits it; and any
successful bind preserves the distinctness of bound service identifiers
(no two bound endpoints ever share one). -/
theorem c3_bind_uniqueness (st : HvState) (skId svcId : Nat) (gen : List Nat) :
    ((∃ g ∈ gen, __hvsock_find_bound_socket st g = none) →
      (__hvsock_do_bind st skId SHV_SERVICE_ID_ANY gen).isSome) ∧
    (∀ r st', __hvsock_do_bind st skId SHV_SERVICE_ID_ANY gen = some (r, st') →
      r = 0 ∧ skId ∈ st'.boundList ∧
      ∀ e, getSock st' skId = some e →
        __hvsock_find_bound_socket st e.localServiceId = none) ∧
    (svcId ≠ SHV_SERVICE_ID_ANY →
      ((__hvsock_find_bound_socket st svcId).isSome →
        __hvsock_do_bind st skId svcId gen = some (-(EADDRINUSE : Int), st)) ∧
      (__hvsock_find_bound_socket st svcId = none →
        ∀ r st', __hvsock_do_bind st skId svcId gen = some (r, st') →
          r = 0 ∧ skId ∈ st'.boundList ∧
          ∀ e, getSock st skId = some e →
            getSock st' skId = some { e with localServiceId := svcId })) ∧
    (∀ r st', (boundSvcIds st).Nodup → skId ∉ st.boundList →
      __hvsock_do_bind st skId svcId gen = some (r, st') →
      (boundSvcIds st').Nodup) := by
  refine ⟨?_, ?_, ?_, ?_⟩
  · rintro ⟨g, hg, hfresh⟩
    have hs := genFreshId_isSome hg hfresh
    obtain ⟨g1, hg1⟩ := Option.isSome_iff_exists.mp hs
    rw [__hvsock_do_bind, if_pos rfl, hg1]
    rfl
  · intro r st' h
    rw [__hvsock_do_bind, if_pos rfl] at h
    cases hgen : genFreshId st gen with
    | none => rw [hgen] at h; exact absurd h (by simp)
    | some g =>
      rw [hgen] at h
      simp only [Option.some.injEq, Prod.mk.injEq] at h
      obtain ⟨hr, hst⟩ := h
      refine ⟨hr.symm, ?_, ?_⟩
      · rw [← hst]; exact List.mem_cons_self _ _
      · intro e he
        rw [← hst] at he
        cases hsk0 : getSockIn st.socks skId with
        | none =>
          have : getSock (__hvsock_insert_bound (updateSock st skId
              (fun x => { x with localServiceId := g })) skId) skId = none :=
            getSockIn_update_none hsk0
          rw [this] at he
          exact absurd he (by simp)
        | some e0 =>
          have : getSock (__hvsock_insert_bound (updateSock st skId
              (fun x => { x with localServiceId := g })) skId) skId =
              some { e0 with localServiceId := g } :=
            getSockIn_update_self (fun _ => rfl) hsk0
          rw [this] at he
          injection he with he2
          rw [← he2]
          exact genFreshId_some hgen
  · intro hsvc
    constructor
    · intro hin
      rw [__hvsock_do_bind, if_neg hsvc, if_pos hin]
    · intro hnone r st' h
      rw [__hvsock_do_bind, if_neg hsvc, if_neg (by rw [hnone]; simp)] at h
      simp only [Option.some.injEq, Prod.mk.injEq] at h
      obtain ⟨hr, hst⟩ := h
      refine ⟨hr.symm, ?_, ?_⟩
      · rw [← hst]; exact List.mem_cons_self _ _
      · intro e he
        rw [← hst]
        exact getSockIn_update_self (fun _ => rfl) he
  · intro r st' hnd hnotin h
    rw [__hvsock_do_bind] at h
    by_cases hw : svcId = SHV_SERVICE_ID_ANY
    · rw [if_pos hw] at h
      cases hgen : genFreshId st gen with
      | none => rw [hgen] at h; exact absurd h (by simp)
      | some g =>
        rw [hgen] at h
        simp only [Option.some.injEq, Prod.mk.injEq] at h
        rw [← h.2]
        exact boundSvcIds_commit hnotin (genFreshId_some hgen) hnd
    · rw [if_neg hw] at h
      by_cases hin : (__hvsock_find_bound_socket st svcId).isSome
      · rw [if_pos hin] at h
        simp only [Option.some.injEq, Prod.mk.injEq] at h
        rw [← h.2]
        exact hnd
      · rw [if_neg hin] at h
        simp only [Option.some.injEq, Prod.mk.injEq] at h
        rw [← h.2]
        exact boundSvcIds_commit hnotin
          (Option.not_isSome_iff_eq_none.mp hin) hnd

/-- An unbound endpoint 3 alongside the bound listener of
`witnessConnState`, for bind witnesses. -/
def witnessBindState : HvState :=
  { socks := [{ defaultEndpoint 2 with
                skState := SS_LISTEN, localServiceId := 11, maxAckBacklog := 8 },
              defaultEndpoint 3],
    boundList := [2], connectedList := [] }

/-- Witness for C3: concretely, a wildcard bind of endpoint 3 whose
generator first collides with the taken identifier 11 and then produces 42
succeeds; binding identifier 11 concretely fails with `-EADDRINUSE`; and
the committed identifiers stay distinct. -/
theorem c3_bind_uniqueness_witness :
    (__hvsock_do_bind witnessBindState 3 SHV_SERVICE_ID_ANY [11, 42]).isSome ∧
    __hvsock_do_bind witnessBindState 3 11 [] =
      some (-(EADDRINUSE : Int), witnessBindState) ∧
    ∀ r st', __hvsock_do_bind witnessBindState 3 SHV_SERVICE_ID_ANY [11, 42] =
      some (r, st') → (boundSvcIds st').Nodup :=
  ⟨(c3_bind_uniqueness witnessBindState 3 0 [11, 42]).1
      ⟨42, by decide, by decide⟩,
   ((c3_bind_uniqueness witnessBindState 3 11 []).2.2.1 (by decide)).1 (by decide),
   fun r st' h => (c3_bind_uniqueness witnessBindState 3 0 [11, 42]).2.2.2
      r st' (by decide) (by decide) h⟩

/-! ### C5: passive open -/

/-- Looking up a singleton endpoint list. -/
theorem getSockIn_singleton {e : Endpoint} {i : Nat} (h : e.id = i) :
    getSockIn [e] i = some e := by
  rw [getSockIn, if_pos h]

/-- Enqueueing onto a listener appends to its queue and bumps its counter,
as seen through `getSock`. -/
theorem getSock_enqueue_self {st : HvState} {lid c : Nat} {l : Endpoint}
    (h : getSock st lid = some l) :
    getSock (hvsock_enqueue_accept st lid c) lid =
      some { l with acceptQueue := l.acceptQueue ++ [c],
                    ackBacklog := l.ackBacklog + 1 } :=
  getSockIn_update_self (fun _ => rfl) h

/-- Enqueueing onto a listener leaves every other endpoint alone. -/
theorem getSock_enqueue_other {st : HvState} {lid c j : Nat} (hne : j ≠ lid) :
    getSock (hvsock_enqueue_accept st lid c) j = getSock st j :=
  getSockIn_update_other (fun _ => rfl) hne

/-- The derived endpoint `hvsock_open_connection` allocates for a listener:
local address the target identifier, remote address the origin identifier,
connected, owning the offered channel. -/
def derivedChild (newId targetServiceId instServiceId ch : Nat) : Endpoint :=
  { defaultEndpoint newId with
    skState := SS_CONNECTED, localServiceId := targetServiceId,
    remoteServiceId := instServiceId, channel := some ch }

/-- Claim C5 (amended): on a handshake arrival whose origin identifier
matches no *bound* endpoint at all: if a `SS_LISTEN` endpoint is bound to
the target identifier with its backlog strictly below its limit (and
allocation and channel open succeed), a new derived endpoint is created
with local address the target and remote address the origin, set
`SS_CONNECTED`, inserted into the connected registry, and appended to that
listener's accept queue with the backlog count incremented; if no listener
matches or the backlog has reached the limit, the offer is rejected with a
negative error and no endpoint is mutated. -/
theorem c5_passive_open (st : HvState) (ch instServiceId targetServiceId : Nat)
    (newId : Nat) (l : Endpoint) :
    (__hvsock_find_bound_socket st instServiceId = none →
     __hvsock_find_bound_socket st targetServiceId = some l →
     l.skState = SS_LISTEN → l.ackBacklog < l.maxAckBacklog →
     getSock st newId = none →
      (hvsock_open_connection st ch instServiceId targetServiceId newId
        true 0).1 = 0 ∧
      (getSock (hvsock_open_connection st ch instServiceId targetServiceId
        newId true 0).2 newId).map
        (fun c => (c.localServiceId, c.remoteServiceId, c.skState, c.channel)) =
        some (targetServiceId, instServiceId, SS_CONNECTED, some ch) ∧
      newId ∈ (hvsock_open_connection st ch instServiceId targetServiceId
        newId true 0).2.connectedList ∧
      (getSock (hvsock_open_connection st ch instServiceId targetServiceId
        newId true 0).2 l.id).map
        (fun x => (x.acceptQueue, x.ackBacklog)) =
        some (l.acceptQueue ++ [newId], l.ackBacklog + 1)) ∧
    (__hvsock_find_bound_socket st instServiceId = none →
     (__hvsock_find_bound_socket st targetServiceId = none ∨
      (__hvsock_find_bound_socket st targetServiceId = some l ∧
        (l.skState ≠ SS_LISTEN ∨ l.maxAckBacklog ≤ l.ackBacklog))) →
     ∀ allocOk openRet,
      (hvsock_open_connection st ch instServiceId targetServiceId newId
        allocOk openRet).2 = st ∧
      (hvsock_open_connection st ch instServiceId targetServiceId newId
        allocOk openRet).1 < 0) := by
  constructor
  · intro h0 hl hls hbk hfresh
    have hgl : getSockIn st.socks l.id = some l := (findByIds_some hl).2.1
    have hlne : l.id ≠ newId := by
      intro hc
      rw [hc] at hgl
      have hfresh1 : getSockIn st.socks newId = none := hfresh
      rw [hfresh1] at hgl
      exact Option.noConfusion hgl
    have hres : hvsock_open_connection st ch instServiceId targetServiceId
        newId true 0 =
        (0, hvsock_enqueue_accept (hvsock_insert_connected
          { st with socks := st.socks ++
            [derivedChild newId targetServiceId instServiceId ch] }
          newId) l.id newId) := by
      rw [hvsock_open_connection, h0]
      dsimp only
      rw [hl]
      dsimp only
      rw [if_neg (by rw [hls]; exact fun hc => hc rfl),
        if_neg (by omega), if_neg (by simp), if_neg (fun hc => hc rfl)]
      rfl
    rw [hres]
    have hchild : getSockIn (st.socks ++
        [derivedChild newId targetServiceId instServiceId ch]) newId =
        some (derivedChild newId targetServiceId instServiceId ch) := by
      have hfresh1 : getSockIn st.socks newId = none := hfresh
      rw [getSockIn_append_right hfresh1]
      exact getSockIn_singleton rfl
    refine ⟨rfl, ?_, ?_, ?_⟩
    · have h2 : getSock (hvsock_enqueue_accept (hvsock_insert_connected
          { st with socks := st.socks ++
            [derivedChild newId targetServiceId instServiceId ch] }
          newId) l.id newId) newId =
          some (derivedChild newId targetServiceId instServiceId ch) := by
        rw [getSock_enqueue_other (fun hc => hlne hc.symm)]
        exact hchild
      rw [h2]
      rfl
    · exact List.mem_cons_self _ _
    · have hgl1 : getSock (hvsock_insert_connected
          { st with socks := st.socks ++
            [derivedChild newId targetServiceId instServiceId ch] }
          newId) l.id = some l := getSockIn_append_left hgl
      rw [getSock_enqueue_self hgl1]
      rfl
  · intro h0 hrej allocOk openRet
    rcases hrej with hnone | ⟨hl, hbad⟩
    · have hres : hvsock_open_connection st ch instServiceId targetServiceId
          newId allocOk openRet = (-6, st) := by
        rw [hvsock_open_connection, h0]
        dsimp only
        rw [hnone]
      rw [hres]
      exact ⟨rfl, by omega⟩
    · rcases hbad with hnl | hfull
      · have hres : hvsock_open_connection st ch instServiceId targetServiceId
            newId allocOk openRet = (-6, st) := by
          rw [hvsock_open_connection, h0]
          dsimp only
          rw [hl]
          dsimp only
          rw [if_pos hnl]
        rw [hres]
        exact ⟨rfl, by omega⟩
      · by_cases hnl : l.skState = SS_LISTEN
        · have hres : hvsock_open_connection st ch instServiceId targetServiceId
              newId allocOk openRet = (-(EMFILE : Int), st) := by
            rw [hvsock_open_connection, h0]
            dsimp only
            rw [hl]
            dsimp only
            rw [if_neg (by rw [hnl]; exact fun hc => hc rfl), if_pos hfull]
          rw [hres]
          refine ⟨rfl, by rw [EMFILE]; omega⟩
        · have hres : hvsock_open_connection st ch instServiceId targetServiceId
              newId allocOk openRet = (-6, st) := by
            rw [hvsock_open_connection, h0]
            dsimp only
            rw [hl]
            dsimp only
            rw [if_pos hnl]
          rw [hres]
          exact ⟨rfl, by omega⟩

/-- A state with endpoint 1 bound to service 5 but *unconnected* (not
`SS_CONNECTING`), and listener 2 bound to service 9 with backlog room. -/
def witnessStaleBoundState : HvState :=
  { socks := [{ defaultEndpoint 1 with
                skState := SS_UNCONNECTED, sockState := SS_UNCONNECTED,
                localServiceId := 5 },
              { defaultEndpoint 2 with
                skState := SS_LISTEN, localServiceId := 9, maxAckBacklog := 1 }],
    boundList := [1, 2], connectedList := [] }

/-- Counterexample for C5 as stated: an offer whose origin identifier 5
matches a bound endpoint that is *not* `SS_CONNECTING` (so no CONNECTING
endpoint matches) while listener 2 is bound to the target identifier 9
with its backlog strictly below its limit — yet the code rejects the offer
with `-ENXIO` and mutates nothing, instead of creating a derived
endpoint. -/
theorem c5_passive_open_counterexample :
    (__hvsock_find_bound_socket witnessStaleBoundState 5).map
      (fun x => x.skState) = some SS_UNCONNECTED ∧
    (__hvsock_find_bound_socket witnessStaleBoundState 9).map
      (fun x => (x.skState, decide (x.ackBacklog < x.maxAckBacklog))) =
      some (SS_LISTEN, true) ∧
    hvsock_open_connection witnessStaleBoundState 7 5 9 3 true 0 =
      (-6, witnessStaleBoundState) := by
  refine ⟨by decide, by decide, by decide⟩

/-- A state with only listener 2 bound (to service 9) with backlog room. -/
def witnessListenState : HvState :=
  { socks := [{ defaultEndpoint 2 with
                skState := SS_LISTEN, localServiceId := 9, maxAckBacklog := 1 }],
    boundList := [2], connectedList := [] }

/-- Witness for C5 (amended): a concrete offer from origin 5 to target 9
against the lone listener creates child 3 (local 9, remote 5, connected,
owning channel 7), enqueues it, and bumps the backlog to 1; a second state
whose listener has a full backlog rejects without mutation. -/
theorem c5_passive_open_witness :
    (hvsock_open_connection witnessListenState 7 5 9 3 true 0).1 = 0 ∧
    (getSock (hvsock_open_connection witnessListenState 7 5 9 3 true 0).2 3).map
      (fun c => (c.localServiceId, c.remoteServiceId, c.skState, c.channel)) =
      some (9, 5, SS_CONNECTED, some 7) ∧
    (getSock (hvsock_open_connection witnessListenState 7 5 9 3 true 0).2 2).map
      (fun x => (x.acceptQueue, x.ackBacklog)) = some ([3], 1) :=
  have h := (c5_passive_open witnessListenState 7 5 9 3
    { defaultEndpoint 2 with
      skState := SS_LISTEN, localServiceId := 9, maxAckBacklog := 1 }).1
    (by decide) (by decide) (by decide) (by decide) (by decide)
  ⟨h.1, h.2.1, h.2.2.2⟩

/-! ### C7: accept-queue discipline -/

/-- A sequence of `hvsock_enqueue_accept` calls, in arrival order. -/
def enqueueAll (st : HvState) (lid : Nat) (arrivals : List Nat) : HvState :=
  arrivals.foldl (fun acc c => hvsock_enqueue_accept acc lid c) st

/-- Repeatedly `hvsock_dequeue_accept`, collecting the children handed out,
with explicit fuel. -/
def drainAccept : HvState → Nat → Nat → List Nat
  | _, _, 0 => []
  | st, lid, fuel + 1 =>
    match hvsock_dequeue_accept st lid with
    | (none, _) => []
    | (some c, st1) => c :: drainAccept st1 lid fuel

theorem getSock_enqueueAll {st : HvState} {lid : Nat} {l : Endpoint}
    (arr : List Nat) (h : getSock st lid = some l) :
    getSock (enqueueAll st lid arr) lid =
      some { l with acceptQueue := l.acceptQueue ++ arr,
                    ackBacklog := l.ackBacklog + arr.length } := by
  induction arr generalizing st l with
  | nil =>
    show getSock st lid = _
    rw [h]
    simp
  | cons a rest ih =>
    show getSock (enqueueAll (hvsock_enqueue_accept st lid a) lid rest) lid = _
    rw [ih (@getSock_enqueue_self st lid a l h)]
    simp only [Option.some.injEq]
    have hq : (l.acceptQueue ++ [a]) ++ rest = l.acceptQueue ++ a :: rest := by
      simp
    have hb : l.ackBacklog + 1 + rest.length = l.ackBacklog + (rest.length + 1) := by
      omega
    simp [hq, hb]

/-- Dequeue from an empty accept queue returns `NULL` and changes nothing. -/
theorem dequeue_nil {st : HvState} {lid : Nat} {l : Endpoint}
    (h : getSock st lid = some l) (hq : l.acceptQueue = []) :
    hvsock_dequeue_accept st lid = (none, st) := by
  rw [hvsock_dequeue_accept, h]
  dsimp only
  rw [hq]

/-- Dequeue from a non-empty accept queue pops the head. -/
theorem dequeue_cons {st : HvState} {lid : Nat} {l : Endpoint} {c : Nat}
    {rest : List Nat} (h : getSock st lid = some l)
    (hq : l.acceptQueue = c :: rest) :
    hvsock_dequeue_accept st lid =
      (some c, updateSock st lid (fun e =>
        { e with acceptQueue := e.acceptQueue.tail,
                 ackBacklog := e.ackBacklog - 1 })) := by
  rw [hvsock_dequeue_accept, h]
  dsimp only
  rw [hq]

/-- Dequeue's state update, as seen through `getSock`. -/
theorem getSock_dequeue_tail {st : HvState} {lid : Nat} {l : Endpoint}
    (h : getSock st lid = some l) :
    getSock (updateSock st lid (fun e =>
      { e with acceptQueue := e.acceptQueue.tail,
               ackBacklog := e.ackBacklog - 1 })) lid =
      some { l with acceptQueue := l.acceptQueue.tail,
                    ackBacklog := l.ackBacklog - 1 } :=
  getSockIn_update_self (fun _ => rfl) h

/-- With a waiting child and no listener error, one loop test hands out the
queue head with the listener's counter decremented. -/
theorem acceptTry_found {st : HvState} {lid : Nat} {l : Endpoint} {c : Nat}
    {rest : List Nat} (h : getSock st lid = some l) (herr : l.skErr = 0)
    (hq : l.acceptQueue = c :: rest) :
    acceptTry lid st = some (0, some c,
      updateSock st lid (fun e =>
        { e with acceptQueue := e.acceptQueue.tail,
                 ackBacklog := e.ackBacklog - 1 })) := by
  rw [acceptTry, dequeue_cons h hq]
  dsimp only
  have herr1 : listenerErr (updateSock st lid (fun e =>
      { e with acceptQueue := e.acceptQueue.tail,
               ackBacklog := e.ackBacklog - 1 })) lid = 0 := by
    rw [listenerErr, getSock_dequeue_tail h]
    exact herr
  rw [acceptFinish, herr1]
  rfl

/-- With an empty queue and no listener error, one loop test keeps
waiting. -/
theorem acceptTry_wait {st : HvState} {lid : Nat} {l : Endpoint}
    (h : getSock st lid = some l) (herr : l.skErr = 0)
    (hq : l.acceptQueue = []) :
    acceptTry lid st = none := by
  rw [acceptTry, dequeue_nil h hq]
  dsimp only
  rw [if_neg (fun hc => hc (by rw [listenerErr, h]; exact herr))]

/-- Draining a listener whose queue holds `q` yields exactly `q`, in
order. -/
theorem drainAccept_spec {lid : Nat} :
    ∀ (q : List Nat) (st : HvState) (l : Endpoint),
    getSock st lid = some l → l.acceptQueue = q →
    drainAccept st lid q.length = q := by
  intro q
  induction q with
  | nil => intro st l h hq; rfl
  | cons c rest ih =>
    intro st l h hq
    show (match hvsock_dequeue_accept st lid with
      | (none, _) => []
      | (some c1, st1) => c1 :: drainAccept st1 lid rest.length) = c :: rest
    rw [dequeue_cons h hq]
    dsimp only
    congr 1
    refine ih _ _ (getSock_dequeue_tail h) ?_
    show l.acceptQueue.tail = rest
    rw [hq]
    rfl

/-- Claim C7: the accept queue is FIFO — enqueue appends at the tail and
increments the backlog counter, dequeue removes the head (the oldest entry)
and decrements it or returns empty on an empty queue, so the children
enqueued into an empty listener drain out in exactly their arrival order;
accept hands out the queue head; and a non-blocking accept on a listener
with an empty queue and no pending error (and no pending signal) returns
`-EAGAIN` ("would block"). -/
theorem c7_accept_fifo :
    (∀ (st : HvState) (lid c : Nat) (l : Endpoint),
      getSock st lid = some l →
      getSock (hvsock_enqueue_accept st lid c) lid =
        some { l with acceptQueue := l.acceptQueue ++ [c],
                      ackBacklog := l.ackBacklog + 1 }) ∧
    (∀ (st : HvState) (lid : Nat) (l : Endpoint),
      getSock st lid = some l → l.acceptQueue = [] →
      hvsock_dequeue_accept st lid = (none, st)) ∧
    (∀ (st : HvState) (lid : Nat) (l : Endpoint) (c : Nat) (rest : List Nat),
      getSock st lid = some l → l.acceptQueue = c :: rest →
      (hvsock_dequeue_accept st lid).1 = some c ∧
      getSock (hvsock_dequeue_accept st lid).2 lid =
        some { l with acceptQueue := rest, ackBacklog := l.ackBacklog - 1 }) ∧
    (∀ (st : HvState) (lid : Nat) (l : Endpoint) (arr : List Nat),
      getSock st lid = some l → l.acceptQueue = [] →
      drainAccept (enqueueAll st lid arr) lid arr.length = arr ∧
      (getSock (enqueueAll st lid arr) lid).map (fun x => x.ackBacklog) =
        some (l.ackBacklog + arr.length)) ∧
    (∀ (st : HvState) (lid : Nat) (l : Endpoint) (c : Nat) (rest : List Nat)
      (nonblock : Bool) (sndtimeo : Nat) (env : List AcceptStep),
      getSock st lid = some l → l.skState = SS_LISTEN → l.skErr = 0 →
      l.acceptQueue = c :: rest →
      (hvsock_accept st lid SOCK_STREAM nonblock sndtimeo env).map
        (fun x => (x.1, x.2.1)) = some (0, some c)) ∧
    (∀ (st : HvState) (lid : Nat) (l : Endpoint) (sndtimeo : Nat)
      (s : AcceptStep) (env : List AcceptStep),
      getSock st lid = some l → l.skState = SS_LISTEN → l.skErr = 0 →
      l.acceptQueue = [] → s.signal = false →
      (hvsock_accept st lid SOCK_STREAM true sndtimeo (s :: env)).map
        (fun x => (x.1, x.2.1)) = some (-(EAGAIN : Int), none)) := by
  have hdeq : ∀ (st : HvState) (lid : Nat) (l : Endpoint) (c : Nat)
      (rest : List Nat), getSock st lid = some l → l.acceptQueue = c :: rest →
      (hvsock_dequeue_accept st lid).1 = some c ∧
      getSock (hvsock_dequeue_accept st lid).2 lid =
        some { l with acceptQueue := rest, ackBacklog := l.ackBacklog - 1 } := by
    intro st lid l c rest h hq
    rw [dequeue_cons h hq]
    refine ⟨rfl, ?_⟩
    rw [getSock_dequeue_tail h, hq]
    rfl
  refine ⟨fun st lid c l h => @getSock_enqueue_self st lid c l h,
    fun st lid l h hq => dequeue_nil h hq, hdeq, ?_, ?_, ?_⟩
  · intro st lid l arr h hq
    have hall := getSock_enqueueAll arr h
    rw [hq] at hall
    simp only [List.nil_append] at hall
    constructor
    · exact drainAccept_spec arr _ _ hall rfl
    · rw [hall]
      rfl
  · intro st lid l c rest nonblock sndtimeo env h hls herr hq
    rw [hvsock_accept, if_neg (fun hc => hc rfl), h]
    dsimp only
    rw [if_neg (show ¬ (l.skState ≠ SS_LISTEN) from fun hc => hc hls)]
    cases env with
    | nil =>
      simp only [acceptLoop]
      rw [acceptTry_found h herr hq]
      rfl
    | cons s env2 =>
      simp only [acceptLoop]
      rw [acceptTry_found h herr hq]
      rfl
  · intro st lid l sndtimeo s env h hls herr hq hsig
    rw [hvsock_accept, if_neg (fun hc => hc rfl), h]
    dsimp only
    rw [if_neg (show ¬ (l.skState ≠ SS_LISTEN) from fun hc => hc hls)]
    simp only [acceptLoop]
    rw [acceptTry_wait h herr hq]
    dsimp only
    rw [acceptSleep, hsig]
    rfl

/-- The lone listener of `witnessListenState`, with two children queued. -/
def witnessQueueState : HvState :=
  { socks := [{ defaultEndpoint 2 with
                skState := SS_LISTEN, localServiceId := 9, maxAckBacklog := 8,
                ackBacklog := 2, acceptQueue := [10, 11] }],
    boundList := [2], connectedList := [] }

/-- Witness for C7: enqueueing children 10 then 11 into the empty listener
drains them back in that order; accept on a listener whose queue holds
10 then 11 hands out 10; and a non-blocking accept on the empty,
error-free listener returns `-EAGAIN`. -/
theorem c7_accept_fifo_witness :
    drainAccept (enqueueAll witnessListenState 2 [10, 11]) 2 2 = [10, 11] ∧
    (hvsock_accept witnessQueueState 2 SOCK_STREAM true 0 []).map
      (fun x => (x.1, x.2.1)) = some (0, some 10) ∧
    (hvsock_accept witnessListenState 2 SOCK_STREAM true 0
      [{ arrivals := [], errAfter := 0, newTimeout := 0, signal := false }]).map
      (fun x => (x.1, x.2.1)) = some (-(EAGAIN : Int), none) :=
  ⟨(c7_accept_fifo.2.2.2.1 witnessListenState 2
      { defaultEndpoint 2 with
        skState := SS_LISTEN, localServiceId := 9, maxAckBacklog := 1 }
      [10, 11] (by decide) (by decide)).1,
   c7_accept_fifo.2.2.2.2.1 witnessQueueState 2
      { defaultEndpoint 2 with
        skState := SS_LISTEN, localServiceId := 9, maxAckBacklog := 8,
        ackBacklog := 2, acceptQueue := [10, 11] }
      10 [11] true 0 [] (by decide) (by decide) (by decide) (by decide),
   c7_accept_fifo.2.2.2.2.2 witnessListenState 2
      { defaultEndpoint 2 with
        skState := SS_LISTEN, localServiceId := 9, maxAckBacklog := 1 }
      0 { arrivals := [], errAfter := 0, newTimeout := 0, signal := false } []
      (by decide) (by decide) (by decide) (by decide) (by decide)⟩

end AfHvsock
